import Mathlib

/-!
Verification of the PerfTiltBot OAuth helper scripts.

The repository has two front-ends driving the same OAuth2
authorization-code flow:
  * `scripts/twitch_oauth_helper.py`  — interactive command-line flow;
  * `scripts/twitch_oauth_web.py`     — Flask browser flow.

This file embeds the flow logic of both scripts: URL construction
(`get_oauth_url` with Python `urlencode`/`quote_plus`), redirect-URL
parsing (`urlparse`/`parse_qs`), the token exchange and refresh calls
(HTTP responses are stubbed as explicit values), config-file
serialization (`create_bot_config`/`create_channel_config`), and the
orchestration (`main` of the helper, the Flask handlers of the web app).
The filesystem is an association list from path to file content; every
HTTP request to the token endpoint is recorded in a trace so that
theorems can state that no call was issued.
-/

/-- A string is its list of characters; `String.mk` undoes `String.data`. -/
theorem strMkData (s : String) : String.mk s.data = s := by
  cases s
  rfl

/-- Characters of a concatenation. -/
theorem strDataAppend (a b : String) : (a ++ b).data = a.data ++ b.data := by
  cases a
  cases b
  rfl

/-- String concatenation is associative. -/
theorem strAppendAssoc (a b c : String) : a ++ b ++ c = a ++ (b ++ c) := by
  cases a
  cases b
  cases c
  show String.mk _ = String.mk _
  simp

/-! ## Percent-encoding: Python `urllib.parse.quote_plus` / `unquote_plus`

`urlencode` percent-encodes every character that is not an ASCII
alphanumeric or one of `_.-~`, mapping a space to `+` and any other
character to `%XX` for each of its UTF-8 bytes (uppercase hex).
The decoder below is the byte-level inverse used by `parse_qs`.
-/

/-- Uppercase hexadecimal digit for a value below 16. -/
def hexDigitChar (n : Nat) : Char :=
  if n < 10 then Char.ofNat (48 + n) else Char.ofNat (55 + n)

/-- UTF-8 bytes of a character (by code point arithmetic). -/
def utf8Bytes (c : Char) : List Nat :=
  let n := c.toNat
  if n < 128 then [n]
  else if n < 2048 then [192 + n / 64, 128 + n % 64]
  else if n < 65536 then [224 + n / 4096, 128 + (n / 64) % 64, 128 + n % 64]
  else [240 + n / 262144, 128 + (n / 4096) % 64, 128 + (n / 64) % 64, 128 + n % 64]

/-- Characters `quote_plus` leaves as-is: ASCII alphanumerics and `_.-~`. -/
def isUrlSafe (c : Char) : Bool :=
  c.isAlpha || c.isDigit || c == '_' || c == '.' || c == '-' || c == '~'

/-- Encoding of a single character under `quote_plus`. -/
def quotePlusChar (c : Char) : String :=
  if isUrlSafe c then String.mk [c]
  else if c == ' ' then "+"
  else String.join ((utf8Bytes c).map
    (fun b => String.mk ['%', hexDigitChar (b / 16), hexDigitChar (b % 16)]))

/-- Python `urllib.parse.quote_plus`. -/
def quotePlus (s : String) : String :=
  String.join (s.data.map quotePlusChar)

/-- Value of a hexadecimal digit, `none` for other characters. -/
def hexVal (c : Char) : Option Nat :=
  if 48 ≤ c.toNat ∧ c.toNat ≤ 57 then some (c.toNat - 48)
  else if 65 ≤ c.toNat ∧ c.toNat ≤ 70 then some (c.toNat - 55)
  else if 97 ≤ c.toNat ∧ c.toNat ≤ 102 then some (c.toNat - 87)
  else none

/-- Byte-level model of Python `unquote_plus`: `+` becomes a space and
`%XX` becomes the character with code `XX`; malformed escapes are kept
literally, as in Python. -/
def unquoteChars : List Char → List Char
  | [] => []
  | '+' :: rest => ' ' :: unquoteChars rest
  | '%' :: a :: b :: rest =>
    match hexVal a, hexVal b with
    | some x, some y => Char.ofNat (16 * x + y) :: unquoteChars rest
    | _, _ => '%' :: unquoteChars (a :: b :: rest)
  | c :: rest => c :: unquoteChars rest

/-- Python `urllib.parse.unquote_plus` on a whole string. -/
def unquotePlus (s : String) : String :=
  String.mk (unquoteChars s.data)

/-- Python `str.join` with a separator, used by `urlencode` and
the space-join of the scope list. -/
def joinSep (sep : String) : List String → String
  | [] => ""
  | [x] => x
  | x :: xs => x ++ sep ++ joinSep sep xs

/-- Python `urllib.parse.urlencode` over an ordered parameter list
(Python dicts preserve insertion order). -/
def urlencode (ps : List (String × String)) : String :=
  joinSep "&" (ps.map (fun p => quotePlus p.1 ++ "=" ++ quotePlus p.2))

/-! ## URL query parsing: Python `urlparse` / `parse_qs` -/

/-- Generic splitter: cut a character list at every occurrence of `sep`. -/
def splitOnChar (sep : Char) : List Char → List Char → List (List Char)
  | [], acc => [acc.reverse]
  | c :: rest, acc =>
    if c = sep then acc.reverse :: splitOnChar sep rest []
    else splitOnChar sep rest (c :: acc)

/-- The query component of a URL as extracted by Python `urlparse`: the
fragment is everything after the first `#`, and the query is everything
after the first `?` of what remains. -/
def urlQuery (url : String) : List Char :=
  let beforeFragment := url.data.takeWhile (fun c => c != '#')
  match beforeFragment.dropWhile (fun c => c != '?') with
  | [] => []
  | _ :: rest => rest

/-- Split a `name=value` piece at its first `=`; `none` when there is
no `=` (such pieces are dropped by `parse_qs`). -/
def splitFirstEq : List Char → Option (List Char × List Char)
  | [] => none
  | c :: rest =>
    if c = '=' then some ([], rest)
    else (splitFirstEq rest).map (fun p => (c :: p.1, p.2))

/-- One `name=value` piece of a query string, decoded; pieces without
`=` or with a blank value are dropped (`keep_blank_values=False`). -/
def parseQsPair (piece : List Char) : Option (String × String) :=
  match splitFirstEq piece with
  | none => none
  | some (n, v) =>
    if v = [] then none
    else some (String.mk (unquoteChars n), String.mk (unquoteChars v))

/-- Python `urllib.parse.parse_qs` flattened to an ordered pair list
(`params[k][0]` of the Python dict-of-lists is the first pair for `k`). -/
def parse_qs (query : List Char) : List (String × String) :=
  (splitOnChar '&' query []).filterMap parseQsPair

/-! ## Filesystem and shared session state -/

/-- The filesystem: an association list from path to file content.
A write replaces any previous entry for the same path, which is what
Python `open(path, 'w')` does. -/
abbrev FS := List (String × String)

/-- Python open-for-writing followed by writing `content`: truncate-and-write. -/
def fsWrite (fs : FS) (path content : String) : FS :=
  (path, content) :: fs.filter (fun e => e.1 != path)

/-- Set a key in a Python dict (the shared `oauth_state` of the web app). -/
def dictSet (st : List (String × String)) (k v : String) : List (String × String) :=
  (k, v) :: st.filter (fun e => e.1 != k)

/-! ## Config serialization (both scripts, `create_bot_config` /
`create_channel_config`) -/

/-- Path of the bot config file, from `twitch_oauth_helper.py` line 122. -/
def bot_config_filename (botName : String) : String :=
  "configs/bots/" ++ botName ++ "_auth_secrets.yaml"

/-- Path of the channel config file, from `twitch_oauth_helper.py` line 146. -/
def channel_config_filename (channelName : String) : String :=
  "configs/channels/" ++ channelName ++ "_config_secrets.yaml"

/-- Content written by `create_bot_config` of `twitch_oauth_helper.py`
(lines 123-128): five `key: "value"` lines. -/
def helper_bot_config_content (botName clientId clientSecret accessToken refreshTok : String) : String :=
  "bot_name: \"" ++ botName ++ "\"\n" ++
  "oauth: \"oauth:" ++ accessToken ++ "\"\n" ++
  "client_id: \"" ++ clientId ++ "\"\n" ++
  "client_secret: \"" ++ clientSecret ++ "\"\n" ++
  "refresh_token: \"" ++ refreshTok ++ "\"\n"

/-- Content written by `create_channel_config` of
`twitch_oauth_helper.py` (lines 147-151): four lines, two of them with
fixed default values. -/
def helper_channel_config_content (botName channelName : String) : String :=
  "bot_name: \"" ++ botName ++ "\"  # References which bot\x27s auth file to use\n" ++
  "channel: \"" ++ channelName ++ "\"  # Twitch channel name\n" ++
  "commands_enabled: true  # Enable/disable bot commands\n" ++
  "cooldown_seconds: 30  # Cooldown between commands\n"

/-- Content written by `create_bot_config` of `twitch_oauth_web.py`
(lines 318-323); the bytes coincide with the helper version. -/
def web_bot_config_content (botName clientId clientSecret accessToken refreshTok : String) : String :=
  "bot_name: \"" ++ botName ++ "\"\n" ++
  "oauth: \"oauth:" ++ accessToken ++ "\"\n" ++
  "client_id: \"" ++ clientId ++ "\"\n" ++
  "client_secret: \"" ++ clientSecret ++ "\"\n" ++
  "refresh_token: \"" ++ refreshTok ++ "\"\n"

/-- Content written by `create_channel_config` of `twitch_oauth_web.py`
(lines 334-338); the bytes coincide with the helper version. -/
def web_channel_config_content (botName channelName : String) : String :=
  "bot_name: \"" ++ botName ++ "\"  # References which bot\x27s auth file to use\n" ++
  "channel: \"" ++ channelName ++ "\"  # Twitch channel name\n" ++
  "commands_enabled: true  # Enable/disable bot commands\n" ++
  "cooldown_seconds: 30  # Cooldown between commands\n"

/-- Function `create_bot_config` of the helper script: write
(overwriting) the bot config file and return its path. -/
def helper_create_bot_config (fs : FS) (botName clientId clientSecret accessToken refreshTok : String) :
    String × FS :=
  let filename := bot_config_filename botName
  (filename, fsWrite fs filename (helper_bot_config_content botName clientId clientSecret accessToken refreshTok))

/-- Function `create_channel_config` of the helper script. -/
def helper_create_channel_config (fs : FS) (botName channelName : String) : String × FS :=
  let filename := channel_config_filename channelName
  (filename, fsWrite fs filename (helper_channel_config_content botName channelName))

/-- Function `create_bot_config` of the web script. -/
def web_create_bot_config (fs : FS) (botName clientId clientSecret accessToken refreshTok : String) :
    String × FS :=
  let filename := bot_config_filename botName
  (filename, fsWrite fs filename (web_bot_config_content botName clientId clientSecret accessToken refreshTok))

/-- Function `create_channel_config` of the web script. -/
def web_create_channel_config (fs : FS) (botName channelName : String) : String × FS :=
  let filename := channel_config_filename channelName
  (filename, fsWrite fs filename (web_channel_config_content botName channelName))

/-! ## Rereading a config file

The repository itself contains no reader for its config files (the bot
runtime is out of scope), so "rereading yields the values written" is
checked against the plain key-value format the files use: one
`key: value` pair per line, values either wrapped in double quotes or
extending to the first space, with `  # ...` comments after the value.
-/

/-- Cut a line at its first `:`, yielding key and the remainder. -/
def splitColon : List Char → Option (List Char × List Char)
  | [] => none
  | c :: rest =>
    if c = ':' then some ([], rest)
    else (splitColon rest).map (fun p => (c :: p.1, p.2))

/-- Value part of a line: strip leading spaces; a quoted value runs to
the closing quote, an unquoted one to the first space (so trailing
`# ...` comments are ignored). -/
def parseVal (v : List Char) : List Char :=
  match v.dropWhile (fun c => c == ' ') with
  | '"' :: rest => rest.takeWhile (fun c => c != '"')
  | other => other.takeWhile (fun c => c != ' ')

/-- Parse one `key: value` line; lines without `:` produce nothing. -/
def parseLine (l : List Char) : Option (String × String) :=
  (splitColon l).map (fun p => (String.mk p.1, String.mk (parseVal p.2)))

/-- Split file content into lines. -/
def splitLinesAux : List Char → List Char → List (List Char)
  | [], acc => [acc.reverse]
  | c :: rest, acc =>
    if c = '\n' then acc.reverse :: splitLinesAux rest []
    else splitLinesAux rest (c :: acc)

/-- Reread a config file as an ordered key-value list. -/
def parseConfig (content : String) : List (String × String) :=
  (splitLinesAux content.data []).filterMap parseLine

/-- The five fields of a bot config document, in file order. -/
def botConfigFields (botName clientId clientSecret accessToken refreshTok : String) :
    List (String × String) :=
  [("bot_name", botName), ("oauth", "oauth:" ++ accessToken),
   ("client_id", clientId), ("client_secret", clientSecret),
   ("refresh_token", refreshTok)]

/-- The four fields of a channel config document, in file order. -/
def channelConfigFields (botName channelName : String) : List (String × String) :=
  [("bot_name", botName), ("channel", channelName),
   ("commands_enabled", "true"), ("cooldown_seconds", "30")]

/-! ## HTTP stubs and the token-endpoint request trace

The remote authorization server is opaque: each flow run is evaluated
against stubbed `HttpResponse` values.  Every `requests.post` to the
token endpoint is recorded as a `TokenRequest` so theorems can assert
that no such call was made.
-/

/-- A stubbed HTTP response: status code, the JSON body as a key-value
list (`response.json()`), and the raw text (`response.text`). -/
structure HttpResponse where
  status : Nat
  body : List (String × String)
  text : String
deriving DecidableEq

/-- The form data of one POST to `https://id.twitch.tv/oauth2/token`. -/
structure TokenRequest where
  clientId : String
  clientSecret : String
  grantType : String
  code : Option String
  refreshTok : Option String
  redirectUri : Option String
deriving DecidableEq

/-! ## Interactive front-end: `twitch_oauth_helper.py` -/

/-- The scope list of both scripts
(the `scopes` list both scripts pass to `get_oauth_url`). -/
def oauthScopes : List String :=
  ["chat:read", "chat:edit", "channel:moderate"]

/-- Function `get_oauth_url` of the helper script (lines 32-41): authorize
endpoint plus urlencoded `client_id`, fixed local `redirect_uri`,
`response_type=code` and the space-joined scopes. -/
def helper_get_oauth_url (clientId : String) (scopes : List String) : String :=
  "https://id.twitch.tv/oauth2/authorize" ++ "?" ++ urlencode
    [("client_id", clientId),
     ("redirect_uri", "http://localhost:3000"),
     ("response_type", "code"),
     ("scope", joinSep " " scopes)]

/-- Function `get_auth_code` of the helper script (lines 43-69): parse the
pasted redirect URL; `none` models the `sys.exit(1)` taken when no
`code` query parameter is present, otherwise the first `code` value. -/
def get_auth_code (redirectUrl : String) : Option String :=
  List.lookup "code" (parse_qs (urlQuery redirectUrl))

/-- Function `exchange_code_for_tokens` of the helper script (lines 71-88):
returns the issued request and, for a 200 response, its JSON body;
`none` models the `sys.exit(1)` taken on any other status. -/
def helper_exchange_code_for_tokens (clientId clientSecret authCode : String)
    (resp : HttpResponse) : TokenRequest × Option (List (String × String)) :=
  (⟨clientId, clientSecret, "authorization_code", some authCode, none,
    some "http://localhost:3000"⟩,
   if resp.status ≠ 200 then none else some resp.body)

/-- Function `refresh_token` of the helper script (lines 90-106): returns the
issued request and, for a 200 response, its JSON body; a non-200 status
yields `none` (Python `None`, a soft failure). -/
def helper_refresh_token (clientId clientSecret tok : String)
    (resp : HttpResponse) : TokenRequest × Option (List (String × String)) :=
  (⟨clientId, clientSecret, "refresh_token", none, some tok, none⟩,
   if resp.status ≠ 200 then none else some resp.body)

/-- A Python value bound to a name of `main`: the string values the
flow manipulates, or the module-level `refresh_token` function. -/
inductive PyVal where
  | str (s : String)
  | func
deriving DecidableEq

/-- Calling the value bound to the name `refresh_token` inside `main`.
Python raises `TypeError` when the value is a string; only the function
object actually performs the refresh call. -/
def callRefreshName (v : PyVal) (clientId clientSecret arg : String)
    (resp : HttpResponse) :
    Except String (TokenRequest × Option (List (String × String))) :=
  match v with
  | .str _ => .error "TypeError: \x27str\x27 object is not callable"
  | .func => .ok (helper_refresh_token clientId clientSecret arg resp)

/-- Inputs the interactive flow reads from the terminal. -/
structure HelperInput where
  botName : String
  channelName : String
  clientId : String
  clientSecret : String
  redirectUrl : String
deriving DecidableEq

/-- Stubbed responses of the token endpoint for one helper run. -/
structure HelperStubs where
  exchangeResp : HttpResponse
  refreshResp : HttpResponse
deriving DecidableEq

/-- How a run of the helper script ends. -/
inductive HelperOutcome where
  | sysExit (exitCode : Nat)
  | typeError (msg : String)
  | keyError (key : String)
  | complete (botConfigPath channelConfigPath : String)
deriving DecidableEq

/-- Result of one run of the helper script. -/
structure HelperResult where
  outcome : HelperOutcome
  tokenCalls : List TokenRequest
  fs : FS
deriving DecidableEq

/-- Function `main` of `twitch_oauth_helper.py` (lines 156-201).  The inputs are
read up front (the script performs no validation on any of them), the
OAuth URL is built and printed, then: parse the pasted redirect URL
(exit 1 when it lacks a `code`), exchange the code (exit 1 on non-200),
read both tokens from the JSON body (a missing key is a `KeyError`),
run the refresh smoke test, and finally write both config files.
Python scoping note: `main` assigns the refresh token string to the
name `refresh_token`
(line 181), which makes `refresh_token` a local variable of `main`, so
the call `refresh_token(client_id, client_secret, refresh_token)`
(line 185) calls that string value, not the module-level function; the
embedding therefore passes `PyVal.str refreshTok` to the call. -/
def helper_main (inp : HelperInput) (stubs : HelperStubs) (fs0 : FS) : HelperResult :=
  match get_auth_code inp.redirectUrl with
  | none => ⟨.sysExit 1, [], fs0⟩
  | some authCode =>
    let exchange := helper_exchange_code_for_tokens inp.clientId inp.clientSecret
      authCode stubs.exchangeResp
    match exchange.2 with
    | none => ⟨.sysExit 1, [exchange.1], fs0⟩
    | some tokens =>
      match List.lookup "access_token" tokens with
      | none => ⟨.keyError "access_token", [exchange.1], fs0⟩
      | some accessToken =>
        match List.lookup "refresh_token" tokens with
        | none => ⟨.keyError "refresh_token", [exchange.1], fs0⟩
        | some refreshTok =>
          match callRefreshName (.str refreshTok) inp.clientId inp.clientSecret
            refreshTok stubs.refreshResp with
          | .error msg => ⟨.typeError msg, [exchange.1], fs0⟩
          | .ok refreshed =>
            let bot := helper_create_bot_config fs0 inp.botName inp.clientId
              inp.clientSecret accessToken refreshTok
            let chan := helper_create_channel_config bot.2 inp.botName inp.channelName
            ⟨.complete bot.1 chan.1, [exchange.1, refreshed.1], chan.2⟩

/-! ## Web front-end: `twitch_oauth_web.py` -/

/-- The page a Flask handler renders (`render_template_string` with a
`step` and its template arguments). -/
inductive WebPage where
  | setupPage
  | twitchAppPage (botName channelName : String)
  | oauthPage (oauthUrl : String)
  | callbackPage
  | successPage (botConfig channelConfig channelName ec2Ip : String)
deriving DecidableEq

/-- The HTTP response of a handler: a redirect to `/` carrying a flashed
error message, or a rendered page. -/
inductive WebResponse where
  | redirectIndex (flashMsg : String)
  | page (p : WebPage)
deriving DecidableEq

/-- Function `get_oauth_url` of the web script (lines 282-291): like the helper
version, but the redirect URI is the `/oauth/callback` path on the
serving host. -/
def web_get_oauth_url (host : String) (clientId : String) (scopes : List String) : String :=
  "https://id.twitch.tv/oauth2/authorize" ++ "?" ++ urlencode
    [("client_id", clientId),
     ("redirect_uri", "http://" ++ host ++ "/oauth/callback"),
     ("response_type", "code"),
     ("scope", joinSep " " scopes)]

/-- Function `exchange_code_for_tokens` of the web script (lines 293-309):
raises `Exception` (modelled by `Except.error` with the message built
at line 307) on any non-200 status. -/
def web_exchange_code_for_tokens (host clientId clientSecret authCode : String)
    (resp : HttpResponse) : TokenRequest × Except String (List (String × String)) :=
  (⟨clientId, clientSecret, "authorization_code", some authCode, none,
    some ("http://" ++ host ++ "/oauth/callback")⟩,
   if resp.status ≠ 200 then
     .error ("Token exchange failed: " ++ toString resp.status ++ " - " ++ resp.text)
   else .ok resp.body)

/-- Handler `setup_bot` (`POST /setup`, lines 346-358): require non-empty
`bot_name` and `channel_name` form fields (Flask `form.get` yields
`None` for a missing field and Python treats `None` and `""` alike
here), store them in `oauth_state` and render the Twitch-app page. -/
def setup_bot (st : List (String × String)) (botNameField channelNameField : Option String) :
    WebResponse × List (String × String) :=
  let botName := botNameField.getD ""
  let channelName := channelNameField.getD ""
  if botName = "" ∨ channelName = "" then
    (.redirectIndex "Please provide both bot name and channel name", st)
  else
    (.page (.twitchAppPage botName channelName),
     dictSet (dictSet st "bot_name" botName) "channel_name" channelName)

/-- Handler `oauth_start` (`POST /oauth/start`, lines 360-375): require
non-empty `client_id` and `client_secret`, store them, build the OAuth
URL and render the authorization page. -/
def oauth_start (st : List (String × String)) (clientIdField clientSecretField : Option String)
    (host : String) : WebResponse × List (String × String) :=
  let clientId := clientIdField.getD ""
  let clientSecret := clientSecretField.getD ""
  if clientId = "" ∨ clientSecret = "" then
    (.redirectIndex "Please provide both Client ID and Client Secret", st)
  else
    (.page (.oauthPage (web_get_oauth_url host clientId oauthScopes)),
     dictSet (dictSet st "client_id" clientId) "client_secret" clientSecret)

/-- The flash message produced when a Python `KeyError` for `key`
escapes to the except clause of the handler (its `str(e)` is the quoted
key). -/
def keyErrorFlash (key : String) : String :=
  "Error processing OAuth: \x27" ++ key ++ "\x27"

/-- Result of `process_callback`: the HTTP response, the shared
`oauth_state` afterwards, the filesystem afterwards, and the trace of
token-endpoint calls. -/
structure WebResult where
  response : WebResponse
  state : List (String × String)
  fs : FS
  tokenCalls : List TokenRequest
deriving DecidableEq

/-- Handler `process_callback` (`GET /oauth/process`, lines 381-431).  Inside a
`try`: the guard at line 386 is the Python truthiness test
`if not auth_code:`, which treats a missing `code` parameter (Flask
`args.get` returns `None`) and an empty one (`?code=` yields `""`)
alike — both flash an error and redirect to `/`;  the `oauth_state`
lookups raise `KeyError` when absent (caught by the `except`, flashed,
redirect to `/`); a failed exchange raises (same handling); on success
both config files are written, `oauth_state` is cleared, and the
success page is rendered — with `channel_name` looked up in the
just-cleared state (the `oauth_state.get` call with default at line 425
runs after `oauth_state.clear()` at line 418). -/
def process_callback (st : List (String × String)) (fs0 : FS) (codeArg : Option String)
    (host : String) (exchangeResp : HttpResponse) (ec2IpEnv : Option String) : WebResult :=
  let authCode := codeArg.getD ""
  if authCode = "" then ⟨.redirectIndex "No authorization code received", st, fs0, []⟩
  else
    match List.lookup "client_id" st with
    | none => ⟨.redirectIndex (keyErrorFlash "client_id"), st, fs0, []⟩
    | some clientId =>
      match List.lookup "client_secret" st with
      | none => ⟨.redirectIndex (keyErrorFlash "client_secret"), st, fs0, []⟩
      | some clientSecret =>
        let exchange := web_exchange_code_for_tokens host clientId clientSecret
          authCode exchangeResp
        match exchange.2 with
        | .error msg =>
          ⟨.redirectIndex ("Error processing OAuth: " ++ msg), st, fs0, [exchange.1]⟩
        | .ok tokens =>
          match List.lookup "access_token" tokens with
          | none => ⟨.redirectIndex (keyErrorFlash "access_token"), st, fs0, [exchange.1]⟩
          | some accessToken =>
            match List.lookup "refresh_token" tokens with
            | none => ⟨.redirectIndex (keyErrorFlash "refresh_token"), st, fs0, [exchange.1]⟩
            | some refreshTok =>
              match List.lookup "bot_name" st with
              | none => ⟨.redirectIndex (keyErrorFlash "bot_name"), st, fs0, [exchange.1]⟩
              | some botName =>
                let bot := web_create_bot_config fs0 botName clientId clientSecret
                  accessToken refreshTok
                match List.lookup "channel_name" st with
                | none => ⟨.redirectIndex (keyErrorFlash "channel_name"), st, bot.2, [exchange.1]⟩
                | some channelName =>
                  let chan := web_create_channel_config bot.2 botName channelName
                  let ec2Ip := ec2IpEnv.getD "54.190.186.177"
                  let cleared : List (String × String) := []
                  ⟨.page (.successPage bot.1 chan.1
                      ((List.lookup "channel_name" cleared).getD "") ec2Ip),
                    cleared, chan.2, [exchange.1]⟩

/-! ## Lemmas about rereading what the serializers write -/

/-- Lemma: `takeWhile` stops exactly at the first failing element. -/
theorem takeWhileAppendStop {α : Type} (p : α → Bool) (l : List α) (x : α) (t : List α)
    (hl : ∀ c ∈ l, p c = true) (hx : p x = false) :
    (l ++ x :: t).takeWhile p = l := by
  induction l with
  | nil => simp [List.takeWhile_cons, hx]
  | cons c cs ih =>
    have hc := hl c (by simp)
    simp [List.takeWhile_cons, hc, ih (fun d hd => hl d (by simp [hd]))]

/-- Lemma: `splitColon` cuts at the first colon. -/
theorem splitColonAppend (k rest : List Char) (hk : ∀ c ∈ k, c ≠ ':') :
    splitColon (k ++ ':' :: rest) = some (k, rest) := by
  induction k with
  | nil => simp [splitColon]
  | cons c cs ih =>
    have hc := hk c (by simp)
    simp [splitColon, hc, ih (fun d hd => hk d (by simp [hd]))]

/-- Splitting off one newline-terminated line. -/
theorem splitLinesAuxAppend (l : List Char) (rest acc : List Char)
    (hl : ∀ c ∈ l, c ≠ '\n') :
    splitLinesAux (l ++ '\n' :: rest) acc = (acc.reverse ++ l) :: splitLinesAux rest [] := by
  induction l generalizing acc with
  | nil => simp [splitLinesAux]
  | cons c cs ih =>
    have hc := hl c (by simp)
    simp [splitLinesAux, hc, ih (c :: acc) (fun d hd => hl d (by simp [hd]))]

/-- Parsing one `key: "value"` line (with arbitrary trailing characters
after the closing quote, covering `  # ...` comments). -/
theorem parseLineQuoted (key v : String) (tailC : List Char)
    (hkey : ∀ c ∈ key.data, c ≠ ':') (hv : ∀ c ∈ v.data, c ≠ '"') :
    parseLine (key.data ++ ':' :: ' ' :: '"' :: (v.data ++ '"' :: tailC)) = some (key, v) := by
  have hsplit := splitColonAppend key.data (' ' :: '"' :: (v.data ++ '"' :: tailC)) hkey
  have htake : (v.data ++ '"' :: tailC).takeWhile (fun c => c != '"') = v.data := by
    refine takeWhileAppendStop _ v.data '"' tailC (fun c hc => ?_) (by simp)
    simpa using hv c hc
  simp [parseLine, hsplit, parseVal, List.dropWhile, htake, strMkData]

/-- Empty string is a left identity of concatenation. -/
theorem strNilAppend (s : String) : "" ++ s = s := by
  cases s
  rfl

/-- Parsing a `key: "value"` line at the head of a config file.  The
line is given as it is written: a literal `pre` holding the key, the
separator and any literal value prefix, the variable part `v` of the
value, and a literal `post` holding the closing quote, an optional
comment and the newline. -/
theorem parseConfigQuotedLine (pre post key vpre v : String) (tailC : List Char) (rest : String)
    (hpre : pre.data = key.data ++ ':' :: ' ' :: '"' :: vpre.data)
    (hpost : post.data = '"' :: (tailC ++ ['\n']))
    (hkey : ∀ c ∈ key.data, c ≠ ':' ∧ c ≠ '\n')
    (hvpre : ∀ c ∈ vpre.data, c ≠ '"' ∧ c ≠ '\n')
    (htail : ∀ c ∈ tailC, c ≠ '\n')
    (hv : ∀ c ∈ v.data, c ≠ '"' ∧ c ≠ '\n') :
    parseConfig (pre ++ (v ++ (post ++ rest))) = (key, vpre ++ v) :: parseConfig rest := by
  have hVdata : (vpre ++ v).data = vpre.data ++ v.data := strDataAppend vpre v
  have hVq : ∀ c ∈ (vpre ++ v).data, c ≠ '"' := by
    intro c hc
    rw [hVdata] at hc
    rcases List.mem_append.mp hc with h | h
    · exact (hvpre c h).1
    · exact (hv c h).1
  have hL : ∀ c ∈ key.data ++ ':' :: ' ' :: '"' :: ((vpre ++ v).data ++ '"' :: tailC), c ≠ '\n' := by
    intro c hc
    simp only [List.mem_append, List.mem_cons, hVdata] at hc
    rcases hc with h | h | h | h | (h | h) | h | h
    · exact (hkey c h).2
    · subst h; decide
    · subst h; decide
    · subst h; decide
    · exact (hvpre c h).2
    · exact (hv c h).2
    · subst h; decide
    · exact htail c h
  have hdata : (pre ++ (v ++ (post ++ rest))).data
      = (key.data ++ ':' :: ' ' :: '"' :: ((vpre ++ v).data ++ '"' :: tailC)) ++ '\n' :: rest.data := by
    simp [strDataAppend, hpre, hpost, hVdata, List.append_assoc]
  unfold parseConfig
  rw [hdata, splitLinesAuxAppend _ _ _ hL]
  rw [List.filterMap_cons]
  rw [show ([] : List Char).reverse ++ (key.data ++ ':' :: ' ' :: '"' :: ((vpre ++ v).data ++ '"' :: tailC))
      = key.data ++ ':' :: ' ' :: '"' :: ((vpre ++ v).data ++ '"' :: tailC) from by simp]
  rw [parseLineQuoted key (vpre ++ v) tailC (fun c h => (hkey c h).1) hVq]

/-- Parsing a `key: "value"` line that is the last line of the file. -/
theorem parseConfigQuotedLast (pre post key vpre v : String) (tailC : List Char)
    (hpre : pre.data = key.data ++ ':' :: ' ' :: '"' :: vpre.data)
    (hpost : post.data = '"' :: (tailC ++ ['\n']))
    (hkey : ∀ c ∈ key.data, c ≠ ':' ∧ c ≠ '\n')
    (hvpre : ∀ c ∈ vpre.data, c ≠ '"' ∧ c ≠ '\n')
    (htail : ∀ c ∈ tailC, c ≠ '\n')
    (hv : ∀ c ∈ v.data, c ≠ '"' ∧ c ≠ '\n') :
    parseConfig (pre ++ (v ++ post)) = [(key, vpre ++ v)] := by
  have h := parseConfigQuotedLine pre post key vpre v tailC "" hpre hpost hkey hvpre htail hv
  have hrw : pre ++ (v ++ (post ++ "")) = pre ++ (v ++ post) := by
    cases pre; cases v; cases post
    show String.mk _ = String.mk _
    simp
  rw [hrw] at h
  rw [h]
  rw [show parseConfig "" = [] from rfl]

/-- Parsing a fully constant line (the channel config lines for
`commands_enabled` and `cooldown_seconds` lines) at the head. -/
theorem parseConfigConstLine (lineNl : String) (l : List Char) (kv : String × String) (rest : String)
    (hsplit : lineNl.data = l ++ ['\n'])
    (hl : ∀ c ∈ l, c ≠ '\n')
    (hparse : parseLine l = some kv) :
    parseConfig (lineNl ++ rest) = kv :: parseConfig rest := by
  have hdata : (lineNl ++ rest).data = l ++ '\n' :: rest.data := by
    rw [strDataAppend, hsplit]
    simp
  unfold parseConfig
  rw [hdata, splitLinesAuxAppend l rest.data [] hl]
  rw [List.filterMap_cons]
  rw [show ([] : List Char).reverse ++ l = l from by simp]
  rw [hparse]

/-- Parsing a fully constant line that is the last line of the file. -/
theorem parseConfigConstLast (lineNl : String) (l : List Char) (kv : String × String)
    (hsplit : lineNl.data = l ++ ['\n'])
    (hl : ∀ c ∈ l, c ≠ '\n')
    (hparse : parseLine l = some kv) :
    parseConfig lineNl = [kv] := by
  have h := parseConfigConstLine lineNl l kv "" hsplit hl hparse
  have hrw : lineNl ++ "" = lineNl := by
    cases lineNl
    show String.mk _ = String.mk _
    simp
  rw [hrw] at h
  rw [h]
  rw [show parseConfig "" = [] from rfl]

/-- A value contains no double quote and no newline. -/
def cleanStr (s : String) : Prop :=
  ∀ c ∈ s.data, c ≠ '"' ∧ c ≠ '\n'

instance (s : String) : Decidable (cleanStr s) := by
  unfold cleanStr
  infer_instance

/-- Rereading the bot config file written by the helper script yields
exactly the five fields written, provided no written value contains a
double quote or a newline. -/
theorem parse_helper_bot_config (bn cid cs A R : String)
    (hbn : cleanStr bn) (hcid : cleanStr cid) (hcs : cleanStr cs)
    (hA : cleanStr A) (hR : cleanStr R) :
    parseConfig (helper_bot_config_content bn cid cs A R) = botConfigFields bn cid cs A R := by
  unfold helper_bot_config_content botConfigFields
  simp only [strAppendAssoc]
  rw [parseConfigQuotedLine "bot_name: \"" "\"\n" "bot_name" "" bn [] _
    (by decide) (by decide) (by decide) (by decide) (by decide) hbn]
  rw [parseConfigQuotedLine "oauth: \"oauth:" "\"\n" "oauth" "oauth:" A [] _
    (by decide) (by decide) (by decide) (by decide) (by decide) hA]
  rw [parseConfigQuotedLine "client_id: \"" "\"\n" "client_id" "" cid [] _
    (by decide) (by decide) (by decide) (by decide) (by decide) hcid]
  rw [parseConfigQuotedLine "client_secret: \"" "\"\n" "client_secret" "" cs [] _
    (by decide) (by decide) (by decide) (by decide) (by decide) hcs]
  rw [parseConfigQuotedLast "refresh_token: \"" "\"\n" "refresh_token" "" R []
    (by decide) (by decide) (by decide) (by decide) (by decide) hR]
  simp [strNilAppend]

/-- Rereading the channel config file written by the helper script
yields exactly the four fields written, under the same cleanliness
condition on the two names. -/
theorem parse_helper_channel_config (bn cn : String)
    (hbn : cleanStr bn) (hcn : cleanStr cn) :
    parseConfig (helper_channel_config_content bn cn) = channelConfigFields bn cn := by
  unfold helper_channel_config_content channelConfigFields
  simp only [strAppendAssoc]
  rw [parseConfigQuotedLine "bot_name: \"" "\"  # References which bot\x27s auth file to use\n"
    "bot_name" "" bn ("  # References which bot\x27s auth file to use").data _
    (by decide) (by decide) (by decide) (by decide) (by decide) hbn]
  rw [parseConfigQuotedLine "channel: \"" "\"  # Twitch channel name\n"
    "channel" "" cn ("  # Twitch channel name").data _
    (by decide) (by decide) (by decide) (by decide) (by decide) hcn]
  rw [parseConfigConstLine "commands_enabled: true  # Enable/disable bot commands\n"
    ("commands_enabled: true  # Enable/disable bot commands").data ("commands_enabled", "true") _
    (by decide) (by decide) (by decide)]
  rw [parseConfigConstLast "cooldown_seconds: 30  # Cooldown between commands\n"
    ("cooldown_seconds: 30  # Cooldown between commands").data ("cooldown_seconds", "30")
    (by decide) (by decide) (by decide)]
  simp [strNilAppend]

/-! ## Filesystem lookup lemmas -/

/-- A write is visible at its own path. -/
theorem fsWriteLookupSelf (fs : FS) (p c : String) :
    List.lookup p (fsWrite fs p c) = some c := by
  simp [fsWrite, List.lookup]

/-- Filtering out entries for a different key does not change a lookup. -/
theorem lookupFilterNe (p q : String) (fs : FS) (h : p ≠ q) :
    List.lookup p (fs.filter (fun e => e.1 != q)) = List.lookup p fs := by
  induction fs with
  | nil => rfl
  | cons e es ih =>
    by_cases he : e.1 = q
    · have hf : (e.1 != q) = false := by simp [he]
      have hp : (p == e.1) = false := by simp [he, h]
      simp [List.filter_cons, hf, List.lookup, hp, ih]
    · have hf : (e.1 != q) = true := by simp [he]
      by_cases hp : p = e.1
      · simp [List.filter_cons, hf, List.lookup, hp]
      · have hp2 : (p == e.1) = false := by simp [hp]
        simp [List.filter_cons, hf, List.lookup, hp2, ih]

/-- A write does not affect lookups at other paths. -/
theorem fsWriteLookupNe (fs : FS) (p q c : String) (h : p ≠ q) :
    List.lookup p (fsWrite fs q c) = List.lookup p fs := by
  have hp : (p == q) = false := by simp [h]
  simp [fsWrite, List.lookup, hp, lookupFilterNe p q fs h]

/-- The bot and channel config paths never collide: they differ at the
ninth character (`b` versus `c`). -/
theorem botPathNeChannelPath (bn cn : String) :
    bot_config_filename bn ≠ channel_config_filename cn := by
  intro h
  have hb : (bot_config_filename bn).data[8]? = some 'b' := by
    rw [bot_config_filename, strDataAppend, strDataAppend, List.append_assoc]
    rw [List.getElem?_append_left (by decide)]
    rfl
  have hc : (channel_config_filename cn).data[8]? = some 'c' := by
    rw [channel_config_filename, strDataAppend, strDataAppend, List.append_assoc]
    rw [List.getElem?_append_left (by decide)]
    rfl
  rw [h, hc] at hb
  exact absurd (Option.some.inj hb) (by decide)

/-! ## Claim theorems -/

/-- C1: for every flow run in which the token-exchange POST returns a
non-2xx status, the interactive front-end exits (`sys.exit(1)`) and the
web front-end redirects to the start page with a flashed error, and in
both cases the filesystem is left exactly as it was: neither the bot
config file nor the channel config file is written or modified. -/
theorem c1_exchange_failure_aborts_without_writes
    (inp : HelperInput) (stubs : HelperStubs) (fs0 : FS)
    (st : List (String × String)) (wfs : FS) (codeArg : Option String) (host : String)
    (resp : HttpResponse) (env : Option String)
    (hHelper : ¬ (200 ≤ stubs.exchangeResp.status ∧ stubs.exchangeResp.status < 300))
    (hWeb : ¬ (200 ≤ resp.status ∧ resp.status < 300)) :
    ((helper_main inp stubs fs0).outcome = .sysExit 1 ∧ (helper_main inp stubs fs0).fs = fs0) ∧
    ((∃ msg, (process_callback st wfs codeArg host resp env).response = .redirectIndex msg) ∧
      (process_callback st wfs codeArg host resp env).fs = wfs) := by
  have hne : stubs.exchangeResp.status ≠ 200 := fun e => hHelper (by omega)
  have hne2 : resp.status ≠ 200 := fun e => hWeb (by omega)
  constructor
  · unfold helper_main
    cases hga : get_auth_code inp.redirectUrl with
    | none => exact ⟨rfl, rfl⟩
    | some code => simp [helper_exchange_code_for_tokens, hne]
  · unfold process_callback
    dsimp only
    by_cases hc : codeArg.getD "" = ""
    · rw [if_pos hc]
      exact ⟨⟨_, rfl⟩, rfl⟩
    · rw [if_neg hc]
      cases List.lookup "client_id" st with
      | none => exact ⟨⟨_, rfl⟩, rfl⟩
      | some cid =>
        cases List.lookup "client_secret" st with
        | none => exact ⟨⟨_, rfl⟩, rfl⟩
        | some csec => simp [web_exchange_code_for_tokens, hne2]

/-- Witness for C1: a concrete run against a token endpoint answering
HTTP 400 exits resp. redirects, leaving the filesystem untouched. -/
theorem c1_exchange_failure_aborts_without_writes_witness :
    (((helper_main ⟨"b", "c", "i", "s", "http://localhost:3000?code=abc"⟩
        ⟨⟨400, [], "Bad Request"⟩, ⟨200, [], ""⟩⟩ []).outcome = .sysExit 1 ∧
      (helper_main ⟨"b", "c", "i", "s", "http://localhost:3000?code=abc"⟩
        ⟨⟨400, [], "Bad Request"⟩, ⟨200, [], ""⟩⟩ []).fs = []) ∧
    ((∃ msg, (process_callback [("client_id", "i"), ("client_secret", "s")] [] (some "abc")
        "host" ⟨400, [], "Bad Request"⟩ none).response = .redirectIndex msg) ∧
      (process_callback [("client_id", "i"), ("client_secret", "s")] [] (some "abc")
        "host" ⟨400, [], "Bad Request"⟩ none).fs = [])) :=
  c1_exchange_failure_aborts_without_writes _ _ _ _ _ _ _ _ _
    (by decide) (by decide)

/-- C2 (divergence evidence): with a fully successful token exchange
(HTTP 200 with both tokens) and a refresh stub answering HTTP 500, the
interactive flow does not reach completion at all: `main` rebinds the
name `refresh_token` to the token string before the smoke-test call, so
the call raises `TypeError` and the run aborts with no config file
written — the refresh stub is never even contacted. -/
theorem c2_refresh_crash_aborts_flow :
    helper_main ⟨"mybot", "mychannel", "cid", "csec", "http://localhost:3000?code=abc"⟩
        ⟨⟨200, [("access_token", "A"), ("refresh_token", "R")], "ok"⟩, ⟨500, [], "err"⟩⟩ []
      = ⟨.typeError "TypeError: \x27str\x27 object is not callable",
         [⟨"cid", "csec", "authorization_code", some "abc", none, some "http://localhost:3000"⟩],
         []⟩ := by
  decide

/-- C3 counterexample: with empty botName and channelName the
interactive front-end advances through identity and credential
collection with no validation error and goes on to issue the
token-endpoint request, falsifying "in both front-ends ... if either is
empty the flow does not advance". -/
theorem c3_counterexample_helper_no_validation :
    (helper_main ⟨"", "", "cid", "csec", "http://localhost:3000?code=abc"⟩
        ⟨⟨400, [], "Bad Request"⟩, ⟨200, [], ""⟩⟩ []).tokenCalls
      = [⟨"cid", "csec", "authorization_code", some "abc", none, some "http://localhost:3000"⟩] := by
  decide

/-- C3 (amended): the identity step of the web front-end requires non-empty
botName and channelName and reports a validation error otherwise, while
the interactive front-end performs no such validation: whenever the
pasted redirect URL carries a code, it proceeds to the token exchange
regardless of the names. -/
theorem c3_identity_validation_web_only
    (st : List (String × String)) (bnF cnF : Option String)
    (inp : HelperInput) (stubs : HelperStubs) (fs0 : FS) :
    ((bnF.getD "" = "" ∨ cnF.getD "" = "") →
      setup_bot st bnF cnF = (.redirectIndex "Please provide both bot name and channel name", st)) ∧
    ((bnF.getD "" ≠ "" ∧ cnF.getD "" ≠ "") →
      setup_bot st bnF cnF = (.page (.twitchAppPage (bnF.getD "") (cnF.getD "")),
        dictSet (dictSet st "bot_name" (bnF.getD "")) "channel_name" (cnF.getD ""))) ∧
    (∀ code, get_auth_code inp.redirectUrl = some code →
      (helper_main inp stubs fs0).tokenCalls ≠ []) := by
  refine ⟨?_, ?_, ?_⟩
  · intro h
    unfold setup_bot
    rw [if_pos h]
  · intro h
    unfold setup_bot
    rw [if_neg (not_or.mpr ⟨h.1, h.2⟩)]
  · intro code hcode
    unfold helper_main
    rw [hcode]
    cases hex : (helper_exchange_code_for_tokens inp.clientId inp.clientSecret code
        stubs.exchangeResp).2 with
    | none => simp [hex]
    | some tokens =>
      cases hat : List.lookup "access_token" tokens with
      | none => simp [hex, hat]
      | some at1 =>
        cases hrt : List.lookup "refresh_token" tokens with
        | none => simp [hex, hat, hrt]
        | some rt => simp [hex, hat, hrt, callRefreshName]

/-- Witness for the amended C3 theorem at concrete inputs. -/
theorem c3_identity_validation_web_only_witness :
    (setup_bot [] (some "") (some "c")
      = (.redirectIndex "Please provide both bot name and channel name", [])) ∧
    (setup_bot [] (some "b") (some "c")
      = (.page (.twitchAppPage "b" "c"),
         dictSet (dictSet [] "bot_name" "b") "channel_name" "c")) ∧
    ((helper_main ⟨"b", "c", "i", "s", "http://localhost:3000?code=abc"⟩
        ⟨⟨400, [], ""⟩, ⟨200, [], ""⟩⟩ []).tokenCalls ≠ []) := by
  have h := c3_identity_validation_web_only [] (some "") (some "c")
    ⟨"b", "c", "i", "s", "http://localhost:3000?code=abc"⟩ ⟨⟨400, [], ""⟩, ⟨200, [], ""⟩⟩ []
  have h2 := c3_identity_validation_web_only [] (some "b") (some "c")
    ⟨"b", "c", "i", "s", "http://localhost:3000?code=abc"⟩ ⟨⟨400, [], ""⟩, ⟨200, [], ""⟩⟩ []
  exact ⟨h.1 (by decide), h2.2.1 (by decide), h.2.2 "abc" (by decide)⟩

/-- C4: whenever the supplied input carries no `code` query parameter —
a pasted redirect URL without one (interactive), or a request without
one (web) — the interactive flow exits with status 1 and the web flow
redirects to the start page with an error, and in both runs the trace
of token-endpoint requests is empty and the filesystem untouched. -/
theorem c4_missing_code_no_token_call
    (inp : HelperInput) (stubs : HelperStubs) (fs0 : FS)
    (st : List (String × String)) (wfs : FS) (host : String)
    (resp : HttpResponse) (env : Option String)
    (hcode : get_auth_code inp.redirectUrl = none) :
    helper_main inp stubs fs0 = ⟨.sysExit 1, [], fs0⟩ ∧
    process_callback st wfs none host resp env
      = ⟨.redirectIndex "No authorization code received", st, wfs, []⟩ := by
  constructor
  · unfold helper_main
    rw [hcode]
  · rfl

/-- Witness for C4: a redirect URL carrying only an `error` parameter. -/
theorem c4_missing_code_no_token_call_witness :
    helper_main ⟨"b", "c", "i", "s", "http://localhost:3000?error=access_denied"⟩
        ⟨⟨200, [], ""⟩, ⟨200, [], ""⟩⟩ [] = ⟨.sysExit 1, [], []⟩ ∧
    process_callback [] [] none "host" ⟨200, [], ""⟩ none
      = ⟨.redirectIndex "No authorization code received", [], [], []⟩ :=
  c4_missing_code_no_token_call _ _ _ _ _ _ _ _ (by decide)

/-- The two scripts serialize the bot config identically. -/
theorem webBotContentEqHelper (bn cid cs A R : String) :
    web_bot_config_content bn cid cs A R = helper_bot_config_content bn cid cs A R := rfl

/-- The two scripts serialize the channel config identically. -/
theorem webChannelContentEqHelper (bn cn : String) :
    web_channel_config_content bn cn = helper_channel_config_content bn cn := rfl

/-- C5: for every successful flow in which the token endpoint returns
`access_token` A and `refresh_token` R, the bot config document placed
at the bot path consists of exactly the five fields
bot_name/oauth/client_id/client_secret/refresh_token, with the oauth
field `"oauth:" ++ A` and the refresh_token field `R` (rereading shown
for values free of quotes and newlines). -/
theorem c5_success_bot_config_fields
    (st : List (String × String)) (wfs : FS) (code host : String)
    (resp : HttpResponse) (env : Option String) (cid csec bn cn A R : String)
    (hcid : List.lookup "client_id" st = some cid)
    (hcs : List.lookup "client_secret" st = some csec)
    (hbn : List.lookup "bot_name" st = some bn)
    (hcn : List.lookup "channel_name" st = some cn)
    (hstatus : resp.status = 200)
    (hA : List.lookup "access_token" resp.body = some A)
    (hR : List.lookup "refresh_token" resp.body = some R)
    (hbnC : cleanStr bn) (hcidC : cleanStr cid) (hcsC : cleanStr csec)
    (hAC : cleanStr A) (hRC : cleanStr R) (hcode : code ≠ "") :
    List.lookup (bot_config_filename bn) (process_callback st wfs (some code) host resp env).fs
      = some (web_bot_config_content bn cid csec A R)
    ∧ parseConfig (web_bot_config_content bn cid csec A R) = botConfigFields bn cid csec A R
    ∧ (botConfigFields bn cid csec A R).length = 5
    ∧ List.lookup "oauth" (botConfigFields bn cid csec A R) = some ("oauth:" ++ A)
    ∧ List.lookup "refresh_token" (botConfigFields bn cid csec A R) = some R
    ∧ List.lookup "bot_name" (botConfigFields bn cid csec A R) = some bn
    ∧ List.lookup "client_id" (botConfigFields bn cid csec A R) = some cid
    ∧ List.lookup "client_secret" (botConfigFields bn cid csec A R) = some csec := by
  refine ⟨?_, ?_, rfl, rfl, rfl, rfl, rfl, rfl⟩
  · have hok : (web_exchange_code_for_tokens host cid csec code resp).2 = Except.ok resp.body := by
      simp [web_exchange_code_for_tokens, hstatus]
    unfold process_callback
    dsimp only
    rw [if_neg (by simpa using hcode)]
    simp only [Option.getD_some, hcid, hcs, hok, hA, hR, hbn, hcn]
    unfold web_create_channel_config web_create_bot_config
    rw [fsWriteLookupNe _ _ _ _ (botPathNeChannelPath bn cn), fsWriteLookupSelf]
  · rw [webBotContentEqHelper]
    exact parse_helper_bot_config bn cid csec A R hbnC hcidC hcsC hAC hRC

/-- Witness for C5: a complete successful web flow with stub tokens
`A`/`R`. -/
theorem c5_success_bot_config_fields_witness :
    List.lookup (bot_config_filename "mybot")
        (process_callback
          [("bot_name", "mybot"), ("channel_name", "mychan"), ("client_id", "i"), ("client_secret", "s")]
          [] (some "abc") "h" ⟨200, [("access_token", "A"), ("refresh_token", "R")], "ok"⟩ none).fs
      = some (web_bot_config_content "mybot" "i" "s" "A" "R")
    ∧ parseConfig (web_bot_config_content "mybot" "i" "s" "A" "R")
      = botConfigFields "mybot" "i" "s" "A" "R"
    ∧ (botConfigFields "mybot" "i" "s" "A" "R").length = 5
    ∧ List.lookup "oauth" (botConfigFields "mybot" "i" "s" "A" "R") = some ("oauth:" ++ "A")
    ∧ List.lookup "refresh_token" (botConfigFields "mybot" "i" "s" "A" "R") = some "R"
    ∧ List.lookup "bot_name" (botConfigFields "mybot" "i" "s" "A" "R") = some "mybot"
    ∧ List.lookup "client_id" (botConfigFields "mybot" "i" "s" "A" "R") = some "i"
    ∧ List.lookup "client_secret" (botConfigFields "mybot" "i" "s" "A" "R") = some "s" :=
  c5_success_bot_config_fields
    [("bot_name", "mybot"), ("channel_name", "mychan"), ("client_id", "i"), ("client_secret", "s")]
    [] "abc" "h" ⟨200, [("access_token", "A"), ("refresh_token", "R")], "ok"⟩ none
    "i" "s" "mybot" "mychan" "A" "R"
    (by decide) (by decide) (by decide) (by decide) rfl (by decide) (by decide)
    (by decide) (by decide) (by decide) (by decide) (by decide) (by decide)

/-- C6 counterexample: for a botName containing a double quote the
written document cannot be reread faithfully — the reread `bot_name`
field is `"a"`, not the written value `"a\"b"` — so the claim does not
hold for every (botName, channelName) pair. -/
theorem c6_counterexample_quote_in_name :
    List.lookup "bot_name" (parseConfig (helper_bot_config_content "a\"b" "i" "s" "A" "R"))
        = some "a"
    ∧ ("a" : String) ≠ "a\"b" := by
  constructor
  · decide
  · decide

/-- C6 (amended): for names and credential values free of double quotes
and newlines, both writers place their file at the deterministic path
derived from the respective name, the bot document has five fields, the
channel document four, and rereading each document yields exactly the
field values written (the web script writes byte-identical documents). -/
theorem c6_paths_fields_roundtrip
    (fs : FS) (bn cn cid cs A R : String)
    (hbn : cleanStr bn) (hcn : cleanStr cn) (hcid : cleanStr cid) (hcs : cleanStr cs)
    (hA : cleanStr A) (hR : cleanStr R) :
    (helper_create_bot_config fs bn cid cs A R).1 = "configs/bots/" ++ bn ++ "_auth_secrets.yaml"
    ∧ (helper_create_channel_config fs bn cn).1
      = "configs/channels/" ++ cn ++ "_config_secrets.yaml"
    ∧ List.lookup (bot_config_filename bn) (helper_create_bot_config fs bn cid cs A R).2
      = some (helper_bot_config_content bn cid cs A R)
    ∧ List.lookup (channel_config_filename cn) (helper_create_channel_config fs bn cn).2
      = some (helper_channel_config_content bn cn)
    ∧ parseConfig (helper_bot_config_content bn cid cs A R) = botConfigFields bn cid cs A R
    ∧ (botConfigFields bn cid cs A R).length = 5
    ∧ parseConfig (helper_channel_config_content bn cn) = channelConfigFields bn cn
    ∧ (channelConfigFields bn cn).length = 4
    ∧ web_bot_config_content bn cid cs A R = helper_bot_config_content bn cid cs A R
    ∧ web_channel_config_content bn cn = helper_channel_config_content bn cn := by
  refine ⟨rfl, rfl, ?_, ?_, ?_, rfl, ?_, rfl, rfl, rfl⟩
  · exact fsWriteLookupSelf fs _ _
  · exact fsWriteLookupSelf fs _ _
  · exact parse_helper_bot_config bn cid cs A R hbn hcid hcs hA hR
  · exact parse_helper_channel_config bn cn hbn hcn

/-- Witness for the amended C6 theorem at concrete clean values. -/
theorem c6_paths_fields_roundtrip_witness :
    (helper_create_bot_config [] "mybot" "i" "s" "A" "R").1
      = "configs/bots/" ++ "mybot" ++ "_auth_secrets.yaml"
    ∧ (helper_create_channel_config [] "mybot" "mychan").1
      = "configs/channels/" ++ "mychan" ++ "_config_secrets.yaml"
    ∧ List.lookup (bot_config_filename "mybot") (helper_create_bot_config [] "mybot" "i" "s" "A" "R").2
      = some (helper_bot_config_content "mybot" "i" "s" "A" "R")
    ∧ List.lookup (channel_config_filename "mychan") (helper_create_channel_config [] "mybot" "mychan").2
      = some (helper_channel_config_content "mybot" "mychan")
    ∧ parseConfig (helper_bot_config_content "mybot" "i" "s" "A" "R")
      = botConfigFields "mybot" "i" "s" "A" "R"
    ∧ (botConfigFields "mybot" "i" "s" "A" "R").length = 5
    ∧ parseConfig (helper_channel_config_content "mybot" "mychan")
      = channelConfigFields "mybot" "mychan"
    ∧ (channelConfigFields "mybot" "mychan").length = 4
    ∧ web_bot_config_content "mybot" "i" "s" "A" "R"
      = helper_bot_config_content "mybot" "i" "s" "A" "R"
    ∧ web_channel_config_content "mybot" "mychan"
      = helper_channel_config_content "mybot" "mychan" :=
  c6_paths_fields_roundtrip [] "mybot" "mychan" "i" "s" "A" "R"
    (by decide) (by decide) (by decide) (by decide) (by decide) (by decide)

/-- C7: rerunning either writer for a botName whose config file already
exists replaces the file content entirely with the serialization of
the newly collected values — the resulting content is a function of the
new values alone, independent of the previous file content. -/
theorem c7_rerun_overwrites_entirely
    (fs : FS) (oldContent bn cid cs A R : String)
    (hexists : List.lookup (bot_config_filename bn) fs = some oldContent) :
    List.lookup (bot_config_filename bn) (helper_create_bot_config fs bn cid cs A R).2
      = some (helper_bot_config_content bn cid cs A R)
    ∧ List.lookup (bot_config_filename bn) (web_create_bot_config fs bn cid cs A R).2
      = some (web_bot_config_content bn cid cs A R) :=
  ⟨fsWriteLookupSelf fs _ _, fsWriteLookupSelf fs _ _⟩

/-- Witness for C7: overwriting an existing stale file. -/
theorem c7_rerun_overwrites_entirely_witness :
    List.lookup (bot_config_filename "mybot")
        (helper_create_bot_config [(bot_config_filename "mybot", "stale")] "mybot" "i" "s" "A" "R").2
      = some (helper_bot_config_content "mybot" "i" "s" "A" "R")
    ∧ List.lookup (bot_config_filename "mybot")
        (web_create_bot_config [(bot_config_filename "mybot", "stale")] "mybot" "i" "s" "A" "R").2
      = some (web_bot_config_content "mybot" "i" "s" "A" "R") :=
  c7_rerun_overwrites_entirely [(bot_config_filename "mybot", "stale")] "stale"
    "mybot" "i" "s" "A" "R" (by decide)

/-- C8 counterexample: after a failed token exchange the web front-end
leaves the shared `oauth_state` exactly as it was — all four session
fields persist into the next request — falsifying "likewise discarded
when the flow is abandoned or fails with an error". -/
theorem c8_counterexample_state_kept_on_failure :
    (process_callback
        [("bot_name", "b"), ("channel_name", "c"), ("client_id", "i"), ("client_secret", "s")]
        [] (some "x") "host" ⟨400, [], "Bad Request"⟩ none).state
      = [("bot_name", "b"), ("channel_name", "c"), ("client_id", "i"), ("client_secret", "s")] := by
  decide

/-- C8 (amended): the web front-end discards the shared session state
only on the success path — `oauth_state` is cleared after the config
files are written — while on a failing run (shown for a non-2xx
exchange, a missing code, or missing session fields) the state is left
untouched and persists into subsequent flows. -/
theorem c8_session_cleared_only_on_success
    (st st2 : List (String × String)) (wfs wfs2 : FS) (code host : String)
    (codeArg2 : Option String) (resp resp2 : HttpResponse) (env : Option String)
    (cid csec bn cn A R : String)
    (hcid : List.lookup "client_id" st = some cid)
    (hcs : List.lookup "client_secret" st = some csec)
    (hbn : List.lookup "bot_name" st = some bn)
    (hcn : List.lookup "channel_name" st = some cn)
    (hstatus : resp.status = 200)
    (hA : List.lookup "access_token" resp.body = some A)
    (hR : List.lookup "refresh_token" resp.body = some R)
    (hcode : code ≠ "")
    (hfail : ¬ (200 ≤ resp2.status ∧ resp2.status < 300)) :
    (process_callback st wfs (some code) host resp env).state = []
    ∧ (process_callback st2 wfs2 codeArg2 host resp2 env).state = st2 := by
  constructor
  · have hok : (web_exchange_code_for_tokens host cid csec code resp).2 = Except.ok resp.body := by
      simp [web_exchange_code_for_tokens, hstatus]
    unfold process_callback
    dsimp only
    rw [if_neg (by simpa using hcode)]
    simp only [Option.getD_some, hcid, hcs, hok, hA, hR, hbn, hcn]
  · have hne2 : resp2.status ≠ 200 := fun e => hfail (by omega)
    unfold process_callback
    dsimp only
    by_cases hc : codeArg2.getD "" = ""
    · rw [if_pos hc]
    · rw [if_neg hc]
      cases List.lookup "client_id" st2 with
      | none => rfl
      | some cid2 =>
        cases List.lookup "client_secret" st2 with
        | none => rfl
        | some csec2 => simp [web_exchange_code_for_tokens, hne2]

/-- Witness for the amended C8 theorem: a successful run clears the
state, a failing run (HTTP 400) keeps it. -/
theorem c8_session_cleared_only_on_success_witness :
    (process_callback
        [("bot_name", "b"), ("channel_name", "c"), ("client_id", "i"), ("client_secret", "s")]
        [] (some "abc") "h" ⟨200, [("access_token", "A"), ("refresh_token", "R")], "ok"⟩ none).state = []
    ∧ (process_callback
        [("bot_name", "b"), ("channel_name", "c"), ("client_id", "i"), ("client_secret", "s")]
        [] (some "abc") "h" ⟨400, [], "Bad Request"⟩ none).state
      = [("bot_name", "b"), ("channel_name", "c"), ("client_id", "i"), ("client_secret", "s")] :=
  c8_session_cleared_only_on_success
    [("bot_name", "b"), ("channel_name", "c"), ("client_id", "i"), ("client_secret", "s")]
    [("bot_name", "b"), ("channel_name", "c"), ("client_id", "i"), ("client_secret", "s")]
    [] [] "abc" "h" (some "abc") ⟨200, [("access_token", "A"), ("refresh_token", "R")], "ok"⟩
    ⟨400, [], "Bad Request"⟩ none "i" "s" "b" "c" "A" "R"
    (by decide) (by decide) (by decide) (by decide) rfl (by decide) (by decide) (by decide)
    (by decide)

/-- C9: for non-empty credentials, both front-ends build the
authorization URL on the fixed authorize endpoint with exactly the
query `client_id=<given>`, the front-end-controlled `redirect_uri`
(the fixed local URL for the interactive script, the `/oauth/callback`
path on the serving host for the web script), `response_type=code` and
the scope set {chat:read, chat:edit, channel:moderate}; the web
front-end only does so after validating both credentials. -/
theorem c9_auth_url (cid csec host : String) (st : List (String × String))
    (hcid : cid ≠ "") (hcsec : csec ≠ "") :
    helper_get_oauth_url cid oauthScopes
      = "https://id.twitch.tv/oauth2/authorize?client_id=" ++
        (quotePlus cid ++
          "&redirect_uri=http%3A%2F%2Flocalhost%3A3000&response_type=code&scope=chat%3Aread+chat%3Aedit+channel%3Amoderate")
    ∧ web_get_oauth_url host cid oauthScopes
      = "https://id.twitch.tv/oauth2/authorize?client_id=" ++
        (quotePlus cid ++ ("&redirect_uri=" ++
          (quotePlus ("http://" ++ host ++ "/oauth/callback") ++
            "&response_type=code&scope=chat%3Aread+chat%3Aedit+channel%3Amoderate")))
    ∧ joinSep " " oauthScopes = "chat:read chat:edit channel:moderate"
    ∧ oauthScopes = ["chat:read", "chat:edit", "channel:moderate"]
    ∧ oauth_start st (some cid) (some csec) host
      = (.page (.oauthPage (web_get_oauth_url host cid oauthScopes)),
         dictSet (dictSet st "client_id" cid) "client_secret" csec) := by
  refine ⟨?_, ?_, rfl, rfl, ?_⟩
  · unfold helper_get_oauth_url urlencode oauthScopes
    simp only [List.map, joinSep, strAppendAssoc]
    rfl
  · unfold web_get_oauth_url urlencode oauthScopes
    simp only [List.map, joinSep, strAppendAssoc]
    rfl
  · unfold oauth_start
    rw [if_neg (not_or.mpr ⟨by simpa using hcid, by simpa using hcsec⟩)]
    rfl

/-- Witness for C9 at concrete credentials and host. -/
theorem c9_auth_url_witness :
    helper_get_oauth_url "i" oauthScopes
      = "https://id.twitch.tv/oauth2/authorize?client_id=" ++
        (quotePlus "i" ++
          "&redirect_uri=http%3A%2F%2Flocalhost%3A3000&response_type=code&scope=chat%3Aread+chat%3Aedit+channel%3Amoderate")
    ∧ web_get_oauth_url "h" "i" oauthScopes
      = "https://id.twitch.tv/oauth2/authorize?client_id=" ++
        (quotePlus "i" ++ ("&redirect_uri=" ++
          (quotePlus ("http://" ++ "h" ++ "/oauth/callback") ++
            "&response_type=code&scope=chat%3Aread+chat%3Aedit+channel%3Amoderate")))
    ∧ joinSep " " oauthScopes = "chat:read chat:edit channel:moderate"
    ∧ oauthScopes = ["chat:read", "chat:edit", "channel:moderate"]
    ∧ oauth_start [] (some "i") (some "s") "h"
      = (.page (.oauthPage (web_get_oauth_url "h" "i" oauthScopes)),
         dictSet (dictSet [] "client_id" "i") "client_secret" "s") :=
  c9_auth_url "i" "s" "h" [] (by decide) (by decide)

/-- C10: every successful completion of `/oauth/process` renders the
success page with the empty string as its channel name — the shared
state is cleared before `channel_name` is read from it — so the
deployment instructions never show the actual channel name. -/
theorem c10_success_page_channel_name_empty
    (st : List (String × String)) (wfs : FS) (code host : String)
    (resp : HttpResponse) (env : Option String) (cid csec bn cn A R : String)
    (hcid : List.lookup "client_id" st = some cid)
    (hcs : List.lookup "client_secret" st = some csec)
    (hbn : List.lookup "bot_name" st = some bn)
    (hcn : List.lookup "channel_name" st = some cn)
    (hstatus : resp.status = 200)
    (hA : List.lookup "access_token" resp.body = some A)
    (hR : List.lookup "refresh_token" resp.body = some R)
    (hcode : code ≠ "") :
    (process_callback st wfs (some code) host resp env).response
      = .page (.successPage (bot_config_filename bn) (channel_config_filename cn) ""
          (env.getD "54.190.186.177")) := by
  have hok : (web_exchange_code_for_tokens host cid csec code resp).2 = Except.ok resp.body := by
    simp [web_exchange_code_for_tokens, hstatus]
  unfold process_callback
  dsimp only
  rw [if_neg (by simpa using hcode)]
  simp only [Option.getD_some, hcid, hcs, hok, hA, hR, hbn, hcn]
  rfl

/-- Witness for C10: a successful run whose stored channel name is the
non-empty "mychan" still renders an empty channel name. -/
theorem c10_success_page_channel_name_empty_witness :
    (process_callback
        [("bot_name", "mybot"), ("channel_name", "mychan"), ("client_id", "i"), ("client_secret", "s")]
        [] (some "abc") "h" ⟨200, [("access_token", "A"), ("refresh_token", "R")], "ok"⟩ none).response
      = .page (.successPage (bot_config_filename "mybot") (channel_config_filename "mychan") ""
          ((none : Option String).getD "54.190.186.177")) :=
  c10_success_page_channel_name_empty
    [("bot_name", "mybot"), ("channel_name", "mychan"), ("client_id", "i"), ("client_secret", "s")]
    [] "abc" "h" ⟨200, [("access_token", "A"), ("refresh_token", "R")], "ok"⟩ none
    "i" "s" "mybot" "mychan" "A" "R"
    (by decide) (by decide) (by decide) (by decide) rfl (by decide) (by decide) (by decide)
